import Mathlib

/-!
Shallow embedding of the `vtds-provider-mock` provider layer.

The embedding follows the Python source:
  * `src/vtds_provider_mock/private/private_provider.py` (`PrivateProvider`),
  * `src/vtds_provider_mock/private/api_objects.py`
    (`PrivateVirtualBlades`, `PrivateBladeInterconnects`, `PrivateBladeConnection`),
  * `src/vtds_provider_mock/provider.py` (`LayerAPI`).

Python dictionaries are modeled as association lists over `String` keys
(insertion ordered, unique keys); `dict.get(k, default)` becomes an
association-list lookup with `Option.getD`.  Exceptions become `Except PyErr`.
Printed output becomes the returned `String` of an operation.
-/

/-- Python exceptions raised by the embedded code.  `contextualError` is
`vtds_base.ContextualError`, the one error class the mock raises itself; the
spec's NotFoundError / InvalidArgumentError / ConfigurationError /
PreconditionError are its message categories.  The remaining constructors are
Python built-in exceptions that the code can raise implicitly. -/
inductive PyErr : Type
  | contextualError (msg : String)
  | typeError (msg : String)
  | valueError (msg : String)
  | indexError (msg : String)
  | keyError (msg : String)
deriving DecidableEq, Repr

deriving instance DecidableEq for Except

/-- Raw configuration value stored under a blade type's `count` key: YAML can
deliver it as an integer or as a string, and the two behave differently under
Python's `int` conversions used in the source. -/
inductive CountVal : Type
  | int (n : Int)
  | str (s : String)
deriving DecidableEq, Repr

/-- One entry of a blade type's `interconnects` mapping; `blade_interconnects`
reads its `name` key (`interconnect['name']`). -/
structure InterconnectRef where
  name : Option String
deriving DecidableEq, Repr

/-- Configuration entry for one virtual blade type (a value in a
`virtual_blades` mapping). -/
structure BladeConfig where
  count : Option CountVal
  hostnames : Option (List String)
  ips : Option (List String)
  interconnects : Option (List (String × InterconnectRef))
  pure_base_class : Option Bool
deriving DecidableEq, Repr

/-- Configuration entry for one blade interconnect (a value in a
`blade_interconnects` mapping). -/
structure InterconnectConfig where
  network_name : Option String
  ipv4_cidr : Option String
  pure_base_class : Option Bool
deriving DecidableEq, Repr

/-- The `provider` key the code looks for inside the configuration it holds
(`config.get('provider', {})` in `__get_blade`, `connect_blades` and
`ipv4_cidr`). -/
structure NestedProviderConfig where
  virtual_blades : Option (List (String × BladeConfig))
  blade_interconnects : Option (List (String × InterconnectConfig))
deriving DecidableEq, Repr

/-- The configuration dictionary held by `PrivateVirtualBlades` /
`PrivateBladeInterconnects` / `PrivateProvider`: the keys the source ever
reads on it are `virtual_blades`, `blade_interconnects` and `provider`. -/
structure ProviderConfig where
  virtual_blades : Option (List (String × BladeConfig))
  blade_interconnects : Option (List (String × InterconnectConfig))
  provider : Option NestedProviderConfig
deriving DecidableEq, Repr

/-- `d.get(k)` on a string-keyed Python dict modeled as an association list. -/
def dictGet {α : Type} (l : List (String × α)) (k : String) : Option α :=
  (l.find? (fun p => p.1 == k)).map (·.2)

/-- `k in d` membership test on a modeled Python dict. -/
def dictMem {α : Type} (l : List (String × α)) (k : String) : Bool :=
  (dictGet l k).isSome

/-- Python `xs[i]` on a list with an `int` index: negative indices count from
the end; out-of-range raises `IndexError`. -/
def pyIndex {α : Type} (xs : List α) (i : Int) : Except PyErr α :=
  let j : Int := if i < 0 then i + (xs.length : Int) else i
  if 0 ≤ j then
    match xs[j.toNat]? with
    | some a => Except.ok a
    | none => Except.error (PyErr.indexError "list index out of range")
  else
    Except.error (PyErr.indexError "list index out of range")

/-- Accumulate the decimal digits of a numeral; `none` on any non-digit. -/
def decDigits (cs : List Char) (acc : Nat) : Option Nat :=
  match cs with
  | [] => some acc
  | c :: rest =>
    if c.isDigit then decDigits rest (acc * 10 + (c.toNat - 48)) else none

/-- Parse a decimal integer literal the way Python's `int` accepts one: an
optional leading minus sign followed by at least one digit.  (Whitespace
trimming, a leading plus sign, underscores, and non-decimal bases are not
exercised by blade counts and are not modeled.) -/
def pyParseInt (s : String) : Option Int :=
  match s.toList with
  | [] => none
  | '-' :: [] => none
  | '-' :: c :: rest => (decDigits (c :: rest) 0).map (fun n => -(n : Int))
  | cs => (decDigits cs 0).map (fun n => (n : Int))

/-- Python `int(v, 0)` — conversion with an explicit base argument, as written
in `__check_instance` (`int(blade.get('count'), 0)`).  A non-string value
(including the `None` that `blade.get('count')` yields when the key is
absent) raises `TypeError`; a decimal string parses; an unparseable string
raises `ValueError`. -/
def pyIntBase0 (v : Option CountVal) : Except PyErr Int :=
  match v with
  | some (CountVal.str s) =>
    match pyParseInt s with
    | some n => Except.ok n
    | none => Except.error (PyErr.valueError ("invalid literal for int() with base 0: '" ++ s ++ "'"))
  | some (CountVal.int _) =>
    Except.error (PyErr.typeError "int() can't convert non-string with explicit base")
  | none =>
    Except.error (PyErr.typeError "int() can't convert non-string with explicit base")

/-- Python `int(v)` — plain conversion, as written in `blade_count`
(`int(blade.get('count', 0))`).  Integers pass through; decimal strings
parse; unparseable strings raise `ValueError`. -/
def pyIntPlain (v : CountVal) : Except PyErr Int :=
  match v with
  | CountVal.int n => Except.ok n
  | CountVal.str s =>
    match pyParseInt s with
    | some n => Except.ok n
    | none => Except.error (PyErr.valueError ("invalid literal for int() with base 10: '" ++ s ++ "'"))

/-! ## `PrivateProvider` — the lifecycle controller
(`private/private_provider.py`). -/

/-- `PrivateProvider.__init__`: stashes the configuration and starts with
`self.prepared = False`.  (`stack` and `build_dir` are stashed too but never
read by any modeled operation, so they are omitted.) -/
structure PrivateProvider where
  config : ProviderConfig
  prepared : Bool
deriving DecidableEq, Repr

/-- `PrivateProvider(stack, config, build_dir)` — the freshly constructed
provider. -/
def initProvider (cfg : ProviderConfig) : PrivateProvider :=
  { config := cfg, prepared := false }

/-- `prepare()`: sets `self.prepared = True` and prints. -/
def PrivateProvider.prepare (p : PrivateProvider) : PrivateProvider × String :=
  ({ p with prepared := true }, "Preparing vtds-provider-mock")

/-- `validate()`: raises `ContextualError` unless prepared, else prints. -/
def PrivateProvider.validate (p : PrivateProvider) : Except PyErr String :=
  if p.prepared then Except.ok "Validating vtds-provider-mock"
  else Except.error (PyErr.contextualError
    "cannot validate an unprepared provider, call prepare() first")

/-- `deploy()`: raises `ContextualError` unless prepared, else prints. -/
def PrivateProvider.deploy (p : PrivateProvider) : Except PyErr String :=
  if p.prepared then Except.ok "Deploying vtds-provider-mock"
  else Except.error (PyErr.contextualError
    "cannot deploy an unprepared provider, call prepare() first")

/-- `shutdown(virtual_blade_names)`: unconditional, prints.  The argument is
modeled by its `str()` rendering, which is all the code uses. -/
def PrivateProvider.shutdown (_p : PrivateProvider) (names : String) :
    Except PyErr String :=
  Except.ok ("Shutting down nodes in vtds-provider-mock: " ++ names)

/-- `startup(virtual_blade_names)`: unconditional, prints. -/
def PrivateProvider.startup (_p : PrivateProvider) (names : String) :
    Except PyErr String :=
  Except.ok ("Starting up nodes in vtds-provider-mock: " ++ names)

/-- `dismantle()`: raises `ContextualError` unless prepared, else prints. -/
def PrivateProvider.dismantle (p : PrivateProvider) : Except PyErr String :=
  if p.prepared then Except.ok "Dismantling vtds-provider-mock"
  else Except.error (PyErr.contextualError
    "cannot dismantle an unprepared provider, call prepare() first")

/-- `restore()`: raises `ContextualError` unless prepared, else prints. -/
def PrivateProvider.restore (p : PrivateProvider) : Except PyErr String :=
  if p.prepared then Except.ok "Restoring vtds-provider-mock"
  else Except.error (PyErr.contextualError
    "cannot restore an unprepared provider, call prepare() first")

/-- `remove()`: raises `ContextualError` unless prepared, else prints.  The
source's error message says "cannot deploy" (a copy-paste of `deploy()`'s
message); the embedding keeps it verbatim. -/
def PrivateProvider.remove (p : PrivateProvider) : Except PyErr String :=
  if p.prepared then Except.ok "Removing vtds-provider-mock"
  else Except.error (PyErr.contextualError
    "cannot deploy an unprepared provider, call prepare() first")

/-- One lifecycle method call, for reasoning about call sequences. -/
inductive Op : Type
  | prepare
  | validate
  | deploy
  | shutdown (names : String)
  | startup (names : String)
  | dismantle
  | restore
  | remove
deriving DecidableEq, Repr

/-- State effect of one lifecycle call: only `prepare` writes to the
provider's state (`self.prepared = True`); every other method reads
`self.prepared`, may raise, and prints — none of them assigns any
attribute. -/
def PrivateProvider.step (p : PrivateProvider) : Op → PrivateProvider
  | Op.prepare => (p.prepare).1
  | _ => p

/-- State after a sequence of lifecycle calls. -/
def PrivateProvider.runOps (p : PrivateProvider) : List Op → PrivateProvider
  | [] => p
  | op :: rest => (p.step op).runOps rest

/-! ## `PrivateVirtualBlades` — the virtual blade registry
(`private/api_objects.py`).  The object holds a configuration dictionary
(`self.config`); the functions below take that dictionary as their first
argument. -/

/-- The mapping consulted by `__get_blade` and `connect_blades`:
`self.config.get('provider', {}).get('virtual_blades', {})`. -/
def providerVirtualBlades (cfg : ProviderConfig) : List (String × BladeConfig) :=
  match cfg.provider with
  | some nested => nested.virtual_blades.getD []
  | none => []

/-- `__get_blade(blade_type)`: looks `blade_type` up under
`provider.virtual_blades` of the held configuration; raises `ContextualError`
when absent.  The source passes no formatting arguments to the message, so
the literal `'%s'` stays in it. -/
def get_blade (cfg : ProviderConfig) (blade_type : String) :
    Except PyErr BladeConfig :=
  match dictGet (providerVirtualBlades cfg) blade_type with
  | some blade => Except.ok blade
  | none => Except.error (PyErr.contextualError "unknown blade type '%s' specified")

/-- An argument passed as a Virtual Blade instance number: the API is
duck-typed, so a caller can pass an `int` or a value of any other type
(carried here by its Python type name, which is all `__check_instance`'s
error message uses). -/
inductive InstanceArg : Type
  | int (n : Int)
  | other (tyname : String)
deriving DecidableEq, Repr

/-- `__check_instance(blade_type, instance)`: rejects non-`int` instances,
then loads the blade configuration, then computes
`count = int(blade.get('count'), 0)` — note the source places the default
`0` in `int()`'s base argument, unlike `blade_count` — and finally rejects
instances outside `[0, count)`. -/
def check_instance (cfg : ProviderConfig) (blade_type : String)
    (inst : InstanceArg) : Except PyErr Int :=
  match inst with
  | InstanceArg.other tyname =>
    Except.error (PyErr.contextualError
      ("Virtual Blade instance number must be integer not '" ++ tyname ++ "'"))
  | InstanceArg.int n =>
    match get_blade cfg blade_type with
    | Except.error e => Except.error e
    | Except.ok blade =>
      match pyIntBase0 blade.count with
      | Except.error e => Except.error e
      | Except.ok count =>
        if n < 0 ∨ n ≥ count then
          Except.error (PyErr.contextualError
            ("instance number " ++ toString n ++
              " out of range for Virtual Blade type '" ++ blade_type ++
              "' which has a count of " ++ toString count))
        else Except.ok n

/-- `blade_types()`: names under `self.config.get('virtual_blades', {})` —
the top level of the held configuration, with no `provider` step — whose
entries are not truthy at `pure_base_class`. -/
def blade_types (cfg : ProviderConfig) : List String :=
  let virtual_blades := cfg.virtual_blades.getD []
  (virtual_blades.filter (fun p => !(p.2.pure_base_class.getD false))).map (·.1)

/-- `blade_count(blade_type)`: `int(blade.get('count', 0))` for the blade
found by `__get_blade`. -/
def blade_count (cfg : ProviderConfig) (blade_type : String) :
    Except PyErr Int :=
  match get_blade cfg blade_type with
  | Except.error e => Except.error e
  | Except.ok blade => pyIntPlain (blade.count.getD (CountVal.int 0))

/-- `[interconnect['name'] for _, interconnect in ...items()]`: collects the
`name` key of every entry, raising `KeyError` when one lacks it. -/
def interconnectNames (entries : List (String × InterconnectRef)) :
    Except PyErr (List String) :=
  match entries with
  | [] => Except.ok []
  | (_, r) :: rest =>
    match r.name with
    | none => Except.error (PyErr.keyError "name")
    | some n =>
      match interconnectNames rest with
      | Except.error e => Except.error e
      | Except.ok ns => Except.ok (n :: ns)

/-- `blade_interconnects(blade_type)`: the `name` of each entry of the
blade's `interconnects` mapping. -/
def blade_interconnects (cfg : ProviderConfig) (blade_type : String) :
    Except PyErr (List String) :=
  match get_blade cfg blade_type with
  | Except.error e => Except.error e
  | Except.ok blade => interconnectNames (blade.interconnects.getD [])

/-- `blade_hostname(blade_type, instance)`: checks the instance, reloads the
blade, and indexes `blade.get('hostnames', [])[instance]`. -/
def blade_hostname (cfg : ProviderConfig) (blade_type : String)
    (inst : InstanceArg) : Except PyErr String :=
  match check_instance cfg blade_type inst with
  | Except.error e => Except.error e
  | Except.ok n =>
    match get_blade cfg blade_type with
    | Except.error e => Except.error e
    | Except.ok blade => pyIndex (blade.hostnames.getD []) n

/-- `blade_ip(blade_type, instance, interconnect)`: checks the instance,
reloads the blade, and indexes `blade.get('ips', [])[instance]`.  The
`interconnect` parameter is accepted and never used by the body. -/
def blade_ip (cfg : ProviderConfig) (blade_type : String)
    (inst : InstanceArg) (_interconnect : String) : Except PyErr String :=
  match check_instance cfg blade_type inst with
  | Except.error e => Except.error e
  | Except.ok n =>
    match get_blade cfg blade_type with
    | Except.error e => Except.error e
    | Except.ok blade => pyIndex (blade.ips.getD []) n

/-! ## `PrivateBladeInterconnects` — the interconnect registry
(`private/api_objects.py`). -/

/-- The mapping consulted by `ipv4_cidr`:
`self.config.get("provider", {}).get("blade_interconnects", {})`. -/
def providerBladeInterconnects (cfg : ProviderConfig) :
    List (String × InterconnectConfig) :=
  match cfg.provider with
  | some nested => nested.blade_interconnects.getD []
  | none => []

/-- `ipv4_cidr(interconnect_name)`: membership test on the mapping above
(`ContextualError` with the source's "requestiong ... unknown blade
interconnect" message — typo preserved — when absent), then a check for the
`ipv4_cidr` key (`ContextualError` naming the interconnect when missing),
else the stored string. -/
def ipv4_cidr (cfg : ProviderConfig) (interconnect_name : String) :
    Except PyErr String :=
  let blade_interconnects := providerBladeInterconnects cfg
  if ¬ (dictMem blade_interconnects interconnect_name) then
    Except.error (PyErr.contextualError
      ("requestiong ipv4_cidr of unknown blade interconnect '" ++
        interconnect_name ++ "'"))
  else
    match dictGet blade_interconnects interconnect_name with
    | none => Except.error (PyErr.contextualError
        ("requestiong ipv4_cidr of unknown blade interconnect '" ++
          interconnect_name ++ "'"))
    | some interconnect =>
      match interconnect.ipv4_cidr with
      | none => Except.error (PyErr.contextualError
          ("provider layer configuration error: no 'ipv4_cidr' found in " ++
            "blade interconnect named '" ++ interconnect_name ++ "'"))
      | some cidr => Except.ok cidr

/-! ## `PrivateBladeConnection` — the simulated connection
(`private/api_objects.py`).

`__init__` stores the instance attributes `hostname`, `blade_type`,
`remote_port`, `local_ip` (fixed `"127.0.0.1"`), `loc_port` (`None`), then
calls `_connect`, which prints and sets `loc_port = 12345`.  The class also
defines the methods `blade_type`, `blade_hostname`, `local_ip` and
`local_port`; Python resolves an attribute on the instance dictionary before
the class, so the `blade_type` and `local_ip` string attributes shadow the
methods of the same names.  The dispatch functions below embed that lookup
order. -/

structure PrivateBladeConnection where
  hostname : String
  blade_type : String
  remote_port : Int
  local_ip : String
  loc_port : Option Int
deriving DecidableEq, Repr

/-- The attribute assignments of `__init__` before `_connect` runs. -/
def pbcNew (hostname : String) (remote_port : Int) (blade_type : String) :
    PrivateBladeConnection :=
  { hostname := hostname, blade_type := blade_type,
    remote_port := remote_port, local_ip := "127.0.0.1", loc_port := none }

/-- `_connect()`: prints the "Connecting to blade ..." line and sets
`self.loc_port = 12345`. -/
def pbcConnect (c : PrivateBladeConnection) : PrivateBladeConnection × String :=
  ({ c with loc_port := some 12345 },
    "Connecting to blade '" ++ c.hostname ++ "'[" ++ c.blade_type ++
      "] port " ++ toString c.remote_port)

/-- `_disconnect()`: sets `self.loc_port = None`. -/
def pbcDisconnect (c : PrivateBladeConnection) : PrivateBladeConnection :=
  { c with loc_port := none }

/-- `PrivateBladeConnection(hostname, remote_port, blade_type)` — attribute
assignments followed by `_connect`. -/
def pbcInit (hostname : String) (remote_port : Int) (blade_type : String) :
    PrivateBladeConnection × String :=
  pbcConnect (pbcNew hostname remote_port blade_type)

/-- A Python value as seen through attribute access on a blade connection. -/
inductive PyVal : Type
  | vStr (s : String)
  | vInt (n : Int)
  | vNone
  | vMethod (name : String)
deriving DecidableEq, Repr

/-- The Python type name of a value, as used in `TypeError` messages. -/
def pyTypeName (v : PyVal) : String :=
  match v with
  | PyVal.vStr _ => "str"
  | PyVal.vInt _ => "int"
  | PyVal.vNone => "NoneType"
  | PyVal.vMethod _ => "method"

/-- The instance dictionary of a `PrivateBladeConnection` after `__init__`:
exactly the attributes the constructor assigns. -/
def pbcInstanceAttr (c : PrivateBladeConnection) (attr : String) :
    Option PyVal :=
  if attr = "hostname" then some (PyVal.vStr c.hostname)
  else if attr = "blade_type" then some (PyVal.vStr c.blade_type)
  else if attr = "remote_port" then some (PyVal.vInt c.remote_port)
  else if attr = "local_ip" then some (PyVal.vStr c.local_ip)
  else if attr = "loc_port" then
    some (match c.loc_port with
      | some n => PyVal.vInt n
      | none => PyVal.vNone)
  else none

/-- The class dictionary of `PrivateBladeConnection`: its public query
methods.  (`_connect` and `_disconnect` are embedded directly as
`pbcConnect` / `pbcDisconnect` above.) -/
def pbcClassAttr (attr : String) : Option PyVal :=
  if attr = "blade_type" ∨ attr = "blade_hostname" ∨
      attr = "local_ip" ∨ attr = "local_port" then
    some (PyVal.vMethod attr)
  else none

/-- Python attribute lookup on a connection: the instance dictionary first,
then the class. -/
def pbcGetattr (c : PrivateBladeConnection) (attr : String) : Option PyVal :=
  match pbcInstanceAttr c attr with
  | some v => some v
  | none => pbcClassAttr attr

/-- The return value of each query method's body, reading the same instance
attributes the source reads (`return self.blade_type`, `return
self.hostname`, `return self.local_ip`, `return self.loc_port`). -/
def pbcMethodBody (c : PrivateBladeConnection) (m : String) : Option PyVal :=
  if m = "blade_type" then some (PyVal.vStr c.blade_type)
  else if m = "blade_hostname" then some (PyVal.vStr c.hostname)
  else if m = "local_ip" then some (PyVal.vStr c.local_ip)
  else if m = "local_port" then
    some (match c.loc_port with
      | some n => PyVal.vInt n
      | none => PyVal.vNone)
  else none

/-- A method call `c.attr()`: look the name up (instance dictionary first),
then call the result — calling a non-method value raises `TypeError` with
Python's "object is not callable" message.  The two remaining branches
(missing name, unmodeled method body) cannot be reached for the four query
names but are needed for totality. -/
def pbcCallMethod (c : PrivateBladeConnection) (attr : String) :
    Except PyErr PyVal :=
  match pbcGetattr c attr with
  | some (PyVal.vMethod m) =>
    match pbcMethodBody c m with
    | some v => Except.ok v
    | none => Except.error (PyErr.typeError "method body not modeled")
  | some v =>
    Except.error (PyErr.typeError
      ("'" ++ pyTypeName v ++ "' object is not callable"))
  | none =>
    Except.error (PyErr.typeError ("no attribute '" ++ attr ++ "'"))

/-! ## Scoped connections — `connect_blade` and `connect_blades`
(`private/api_objects.py`).

Both are `@contextmanager` generators.  A caller's `with` body is modeled as
a function from the yielded value to (the possibly mutated connection states,
an outcome); the outcome records whether the body returned normally or
raised. -/

/-- Outcome of a caller's `with` body: a normal return or an exception. -/
inductive BodyResult (α : Type) : Type
  | normal (a : α)
  | raised (e : PyErr)
deriving DecidableEq, Repr

/-- Observable run of one `connect_blade` scope that reached its `yield`:
the connection as yielded to the body, the connection after the `finally`
ran, and the body's outcome (re-raised after the `finally` when it is an
exception). -/
structure ScopeRun (α : Type) where
  yielded : PrivateBladeConnection
  final : PrivateBladeConnection
  outcome : BodyResult α
deriving DecidableEq, Repr

/-- `connect_blade(remote_port, blade_type, instance)` run against a body:
`blade_hostname` first (any of its exceptions propagates before a connection
exists), then the connection is constructed (which connects), then
`try: yield connection finally: connection._disconnect()`. -/
def connect_blade {α : Type} (cfg : ProviderConfig) (remote_port : Int)
    (blade_type : String) (inst : InstanceArg)
    (body : PrivateBladeConnection → PrivateBladeConnection × BodyResult α) :
    Except PyErr (ScopeRun α) :=
  match blade_hostname cfg blade_type inst with
  | Except.error e => Except.error e
  | Except.ok hostname =>
    let connection := (pbcInit hostname remote_port blade_type).1
    let after_body := body connection
    Except.ok
      { yielded := connection,
        final := pbcDisconnect after_body.1,
        outcome := after_body.2 }

/-- The instance loop of `connect_blades`'s list comprehension for one blade
type: one `PrivateBladeConnection(self.blade_hostname(blade_type, instance),
remote_port, blade_type)` per instance number.  On an exception the
connections built so far (`made`, in creation order) are returned with the
error: the comprehension is evaluated before the `try`, so nothing releases
them. -/
def setupInstances (cfg : ProviderConfig) (remote_port : Int)
    (blade_type : String) (insts : List Int)
    (made : List PrivateBladeConnection) :
    Except (PyErr × List PrivateBladeConnection)
      (List PrivateBladeConnection) :=
  match insts with
  | [] => Except.ok made
  | i :: rest =>
    match blade_hostname cfg blade_type (InstanceArg.int i) with
    | Except.error e => Except.error (e, made)
    | Except.ok hostname =>
      setupInstances cfg remote_port blade_type rest
        (made ++ [(pbcInit hostname remote_port blade_type).1])

/-- The blade-type loop of the comprehension: `range(0,
self.blade_count(blade_type))` per listed type, threading the connections
already created. -/
def setupConnections (cfg : ProviderConfig) (remote_port : Int)
    (bts : List String) (made : List PrivateBladeConnection) :
    Except (PyErr × List PrivateBladeConnection)
      (List PrivateBladeConnection) :=
  match bts with
  | [] => Except.ok made
  | blade_type :: rest =>
    match blade_count cfg blade_type with
    | Except.error e => Except.error (e, made)
    | Except.ok count =>
      match setupInstances cfg remote_port blade_type
          ((List.range count.toNat).map Int.ofNat) made with
      | Except.error r => Except.error r
      | Except.ok made2 => setupConnections cfg remote_port rest made2

/-- Observable result of one `connect_blades` call: either the comprehension
raised before the `try` was entered — the error propagates and the
connections already created (`leaked`) are never released — or the scope ran:
the yielded list, the per-connection states after the `finally` disconnected
each one, and the body's outcome. -/
inductive ConnectBladesResult (α : Type) : Type
  | setupFailed (e : PyErr) (leaked : List PrivateBladeConnection)
  | completed (yielded : List PrivateBladeConnection)
      (final : List PrivateBladeConnection) (outcome : BodyResult α)
deriving DecidableEq, Repr

/-- The default blade-type list of `connect_blades`: it filters
`config.get('provider', {}).get('virtual_blades', {})` by
`pure_base_class` truthiness. -/
def defaultBladeTypes (cfg : ProviderConfig) : List String :=
  let virtual_blades := providerVirtualBlades cfg
  (virtual_blades.filter
    (fun p => !(p.2.pure_base_class.getD false))).map (·.1)

/-- The blade-type list `connect_blades` iterates: the caller's list when
given, else the non-pure-base names under `provider.virtual_blades`. -/
def bladeTypesArg (cfg : ProviderConfig) (bts? : Option (List String)) :
    List String :=
  match bts? with
  | some l => l
  | none => defaultBladeTypes cfg

/-- `connect_blades(remote_port, blade_types=None)` run against a body: the
comprehension builds all connections (outside any `try`); then
`try: yield connections finally: for connection in connections:
connection._disconnect()`. -/
def connect_blades {α : Type} (cfg : ProviderConfig) (remote_port : Int)
    (bts? : Option (List String))
    (body : List PrivateBladeConnection →
      List PrivateBladeConnection × BodyResult α) :
    ConnectBladesResult α :=
  match setupConnections cfg remote_port (bladeTypesArg cfg bts?) [] with
  | Except.error (e, made) => ConnectBladesResult.setupFailed e made
  | Except.ok connections =>
    let after_body := body connections
    ConnectBladesResult.completed connections
      (after_body.1.map pbcDisconnect) after_body.2

/-! ## Concrete configurations used as witnesses -/

/-- A non-base blade type with a string-valued count, as `__check_instance`'s
`int(..., 0)` requires for success. -/
def bladeCompute : BladeConfig :=
  { count := some (CountVal.str "2"), hostnames := some ["h0", "h1"],
    ips := some ["10.0.0.1", "10.0.0.2"],
    interconnects := some [("a", { name := some "net0" })],
    pure_base_class := none }

/-- A pure-base-class blade type. -/
def bladeBase : BladeConfig :=
  { count := some (CountVal.str "0"), hostnames := some [], ips := some [],
    interconnects := none, pure_base_class := some true }

/-- The same blade type as `bladeCompute` but with the count stored as the
integer `2`, as in the spec's worked example (`count: 2`). -/
def bladeComputeIntCount : BladeConfig :=
  { bladeCompute with count := some (CountVal.int 2) }

/-- A configuration whose held dictionary has `virtual_blades` at its top
level and no nested `provider` key — the shape `LayerAPI` produces when it
hands `config['provider']` to the private layer. -/
def cfgTop : ProviderConfig :=
  { virtual_blades := some [("compute", bladeCompute), ("base", bladeBase)],
    blade_interconnects := none, provider := none }

/-- An interconnect entry with an `ipv4_cidr`. -/
def icWithCidr : InterconnectConfig :=
  { network_name := some "netA", ipv4_cidr := some "10.0.0.0/24",
    pure_base_class := none }

/-- An interconnect entry lacking `ipv4_cidr`. -/
def icNoCidr : InterconnectConfig :=
  { network_name := some "netB", ipv4_cidr := none, pure_base_class := none }

/-- A configuration carrying a nested `provider` key, the shape under which
`__get_blade` and `ipv4_cidr` find their entries. -/
def cfgNested : ProviderConfig :=
  { virtual_blades := none, blade_interconnects := none,
    provider := some
      { virtual_blades := some [("compute", bladeCompute)],
        blade_interconnects := some [("netA", icWithCidr), ("netB", icNoCidr)] } }

/-- Like `cfgNested` but with the count stored as an integer. -/
def cfgIntCount : ProviderConfig :=
  { virtual_blades := none, blade_interconnects := none,
    provider := some
      { virtual_blades := some [("compute", bladeComputeIntCount)],
        blade_interconnects := none } }

/-- Blade type with one instance and one hostname. -/
def bladeA : BladeConfig :=
  { count := some (CountVal.str "1"), hostnames := some ["a0"],
    ips := some ["10.0.0.1"], interconnects := none, pure_base_class := none }

/-- Blade type declaring two instances but configured with a single
hostname, so building its second connection raises `IndexError`. -/
def bladeB : BladeConfig :=
  { count := some (CountVal.str "2"), hostnames := some ["b0"],
    ips := some ["10.0.0.3"], interconnects := none, pure_base_class := none }

/-- A configuration on which `connect_blades` fails partway through
connection setup. -/
def cfgLeak : ProviderConfig :=
  { virtual_blades := none, blade_interconnects := none,
    provider := some
      { virtual_blades := some [("blade_a", bladeA), ("blade_b", bladeB)],
        blade_interconnects := none } }

/-- A `with` body that touches nothing and returns normally. -/
def bodyNoop : List PrivateBladeConnection →
    List PrivateBladeConnection × BodyResult Unit :=
  fun l => (l, BodyResult.normal ())

/-- A `with` body for a single connection that raises. -/
def bodyRaise : PrivateBladeConnection →
    PrivateBladeConnection × BodyResult Unit :=
  fun c => (c, BodyResult.raised (PyErr.valueError "boom"))

/-- The `prepared` flag after a call sequence from any start state: it is set
iff it was already set or the sequence contains a `prepare` call. -/
theorem runOps_prepared (p : PrivateProvider) (tr : List Op) :
    (p.runOps tr).prepared = (p.prepared || decide (Op.prepare ∈ tr)) := by
  induction tr generalizing p with
  | nil => simp [PrivateProvider.runOps]
  | cons op rest ih =>
    rw [PrivateProvider.runOps, ih]
    cases op <;>
      simp [PrivateProvider.step, PrivateProvider.prepare, List.mem_cons]


/-- C1: for every provider instance, calling `validate()`, `deploy()`,
`dismantle()`, `restore()` or `remove()` before `prepare()` has been called
raises `PreconditionError` (a `ContextualError` telling the caller to call
`prepare()` first), and after `prepare()` has been called each of these
operations succeeds unconditionally and reports the action. -/
theorem lifecycle_precondition_spec (cfg : ProviderConfig) (tr : List Op) :
    (Op.prepare ∉ tr →
      ((initProvider cfg).runOps tr).validate = Except.error
        (PyErr.contextualError
          "cannot validate an unprepared provider, call prepare() first") ∧
      ((initProvider cfg).runOps tr).deploy = Except.error
        (PyErr.contextualError
          "cannot deploy an unprepared provider, call prepare() first") ∧
      ((initProvider cfg).runOps tr).dismantle = Except.error
        (PyErr.contextualError
          "cannot dismantle an unprepared provider, call prepare() first") ∧
      ((initProvider cfg).runOps tr).restore = Except.error
        (PyErr.contextualError
          "cannot restore an unprepared provider, call prepare() first") ∧
      ((initProvider cfg).runOps tr).remove = Except.error
        (PyErr.contextualError
          "cannot deploy an unprepared provider, call prepare() first")) ∧
    (Op.prepare ∈ tr →
      ((initProvider cfg).runOps tr).validate =
        Except.ok "Validating vtds-provider-mock" ∧
      ((initProvider cfg).runOps tr).deploy =
        Except.ok "Deploying vtds-provider-mock" ∧
      ((initProvider cfg).runOps tr).dismantle =
        Except.ok "Dismantling vtds-provider-mock" ∧
      ((initProvider cfg).runOps tr).restore =
        Except.ok "Restoring vtds-provider-mock" ∧
      ((initProvider cfg).runOps tr).remove =
        Except.ok "Removing vtds-provider-mock") := by
  have hp := runOps_prepared (initProvider cfg) tr
  constructor
  · intro h
    have hfalse : ((initProvider cfg).runOps tr).prepared = false := by
      rw [hp]
      simp [initProvider, h]
    simp [PrivateProvider.validate, PrivateProvider.deploy,
      PrivateProvider.dismantle, PrivateProvider.restore,
      PrivateProvider.remove, hfalse]
  · intro h
    have htrue : ((initProvider cfg).runOps tr).prepared = true := by
      rw [hp]
      simp [initProvider, h]
    simp [PrivateProvider.validate, PrivateProvider.deploy,
      PrivateProvider.dismantle, PrivateProvider.restore,
      PrivateProvider.remove, htrue]

/-- Witness for C1: on a fresh provider, `validate` fails before any
`prepare` call and succeeds once the call sequence contains one. -/
theorem lifecycle_precondition_spec_witness :
    ((initProvider cfgTop).runOps []).validate = Except.error
      (PyErr.contextualError
        "cannot validate an unprepared provider, call prepare() first") ∧
    ((initProvider cfgTop).runOps [Op.prepare]).validate =
      Except.ok "Validating vtds-provider-mock" :=
  ⟨((lifecycle_precondition_spec cfgTop []).1 (by decide)).1,
    ((lifecycle_precondition_spec cfgTop [Op.prepare]).2 (by decide)).1⟩

/-- C9: the `prepared` flag is monotone — once true, no sequence of
lifecycle operations in this layer (including `dismantle` and `remove`)
resets it. -/
theorem prepared_monotone (p : PrivateProvider) (ops : List Op)
    (h : p.prepared = true) : (p.runOps ops).prepared = true := by
  rw [runOps_prepared, h]
  simp

/-- Witness for C9: prepare a fresh provider, then dismantle and remove; the
flag stays set. -/
theorem prepared_monotone_witness :
    ((initProvider cfgTop).prepare.1).prepared = true ∧
    (((initProvider cfgTop).prepare.1).runOps
      [Op.dismantle, Op.remove, Op.shutdown "None"]).prepared = true :=
  ⟨rfl, prepared_monotone ((initProvider cfgTop).prepare.1)
    [Op.dismantle, Op.remove, Op.shutdown "None"] rfl⟩

/-- C3 (failing-input evaluation): with the blade count stored as the
integer `2` — the shape of the spec's own worked example (`count: 2`) —
`blade_hostname('compute', 1)` raises `TypeError` instead of returning the
configured hostname, because `__check_instance` computes
`int(blade.get('count'), 0)`: the intended default `0` sits in `int()`'s
base argument (its sibling `blade_count` uses `int(blade.get('count', 0))`).
With the count stored as the string `"2"` the same call returns `"h1"` and
an out-of-range instance gets the in-range `ContextualError`, confirming the
claim describes the intended behavior. -/
theorem blade_hostname_count_conversion_eval :
    blade_hostname cfgIntCount "compute" (InstanceArg.int 1) =
      Except.error
        (PyErr.typeError "int() can't convert non-string with explicit base") ∧
    blade_hostname cfgNested "compute" (InstanceArg.int 1) =
      Except.ok "h1" ∧
    blade_hostname cfgNested "compute" (InstanceArg.int 2) =
      Except.error (PyErr.contextualError
        ("instance number 2 out of range for Virtual Blade type 'compute'" ++
          " which has a count of 2")) ∧
    blade_hostname cfgNested "nosuch" (InstanceArg.int 0) =
      Except.error
        (PyErr.contextualError "unknown blade type '%s' specified") := by
  refine ⟨rfl, rfl, ?_, rfl⟩
  decide

/-- C4: whenever the hostname lookup succeeds, `connect_blade` yields a
connection whose `local_port` is set (to `12345`, not the unset sentinel)
while the scope is active, and the connection's `local_port` is the unset
sentinel immediately after the scope exits — for every body, whether it
returns normally or raises, and whatever it does to the connection. -/
theorem connect_blade_scope_spec {α : Type} (cfg : ProviderConfig)
    (remote_port : Int) (blade_type : String) (inst : InstanceArg)
    (hostname : String)
    (body : PrivateBladeConnection → PrivateBladeConnection × BodyResult α)
    (h : blade_hostname cfg blade_type inst = Except.ok hostname) :
    ∃ r : ScopeRun α,
      connect_blade cfg remote_port blade_type inst body = Except.ok r ∧
      r.yielded.loc_port = some 12345 ∧
      r.yielded.loc_port ≠ none ∧
      r.final.loc_port = none ∧
      r.outcome = (body r.yielded).2 := by
  refine ⟨ScopeRun.mk (pbcInit hostname remote_port blade_type).1
    (pbcDisconnect (body (pbcInit hostname remote_port blade_type).1).1)
    ((body (pbcInit hostname remote_port blade_type).1).2),
    ?_, ?_, ?_, ?_, ?_⟩
  · unfold connect_blade
    rw [h]
  · simp [pbcInit, pbcConnect, pbcNew]
  · simp [pbcInit, pbcConnect, pbcNew]
  · simp [pbcDisconnect]
  · rfl

/-- Witness for C4: a concrete connection to instance 0 of `compute`, with a
body that raises; the yielded port is set and the final port is the
sentinel. -/
theorem connect_blade_scope_spec_witness :
    blade_hostname cfgNested "compute" (InstanceArg.int 0) =
      Except.ok "h0" ∧
    ∃ r : ScopeRun Unit,
      connect_blade cfgNested 22 "compute" (InstanceArg.int 0) bodyRaise =
        Except.ok r ∧
      r.yielded.loc_port = some 12345 ∧
      r.yielded.loc_port ≠ none ∧
      r.final.loc_port = none ∧
      r.outcome = (bodyRaise r.yielded).2 :=
  ⟨rfl, connect_blade_scope_spec cfgNested 22 "compute" (InstanceArg.int 0)
    "h0" bodyRaise rfl⟩

/-- C5: for a blade type and instance that pass the code's own validation
(`__check_instance` succeeds) and whose flat `ips` list covers the instance,
`blade_ip` returns the same result for any two interconnect arguments — the
parameter never reaches the lookup — and that result is the instance-th
element of the blade type's flat `ips` list. -/
theorem blade_ip_ignores_interconnect (cfg : ProviderConfig)
    (blade_type : String) (i : Int) (x y : String) (blade : BladeConfig)
    (s : String)
    (hch : check_instance cfg blade_type (InstanceArg.int i) = Except.ok i)
    (hb : get_blade cfg blade_type = Except.ok blade)
    (hs : (blade.ips.getD [])[i.toNat]? = some s) :
    blade_ip cfg blade_type (InstanceArg.int i) x =
      blade_ip cfg blade_type (InstanceArg.int i) y ∧
    blade_ip cfg blade_type (InstanceArg.int i) x = Except.ok s := by
  constructor
  · rfl
  · have hnonneg : 0 ≤ i := by
      by_contra hneg
      push_neg at hneg
      unfold check_instance at hch
      rw [hb] at hch
      dsimp only [] at hch
      cases hc : pyIntBase0 blade.count with
      | error e =>
        rw [hc] at hch
        exact absurd hch (by simp)
      | ok count =>
        rw [hc] at hch
        dsimp only [] at hch
        rw [if_pos (Or.inl hneg)] at hch
        exact absurd hch (by simp)
    have hnlt : ¬ i < 0 := not_lt.mpr hnonneg
    unfold blade_ip
    rw [hch, hb]
    simp [pyIndex, hnlt, hnonneg, hs]

/-- Witness for C5: instance 1 of `compute` under two different interconnect
names gives the same IP, the second element of the flat `ips` list. -/
theorem blade_ip_ignores_interconnect_witness :
    blade_ip cfgNested "compute" (InstanceArg.int 1) "netA" =
      blade_ip cfgNested "compute" (InstanceArg.int 1) "netB" ∧
    blade_ip cfgNested "compute" (InstanceArg.int 1) "netA" =
      Except.ok "10.0.0.2" :=
  blade_ip_ignores_interconnect cfgNested "compute" 1 "netA" "netB"
    bladeCompute "10.0.0.2" (by decide) rfl rfl

/-- C6: `ipv4_cidr(interconnect_name)` raises the not-found
`ContextualError` when the name is absent from the configured
`provider.blade_interconnects` mapping, raises the configuration
`ContextualError` whose message names the interconnect when the entry exists
but lacks an `ipv4_cidr` field, and otherwise returns the entry's
`ipv4_cidr` string. -/
theorem ipv4_cidr_spec (cfg : ProviderConfig) (name : String) :
    (dictGet (providerBladeInterconnects cfg) name = none →
      ipv4_cidr cfg name = Except.error (PyErr.contextualError
        ("requestiong ipv4_cidr of unknown blade interconnect '" ++
          name ++ "'"))) ∧
    (∀ ic, dictGet (providerBladeInterconnects cfg) name = some ic →
      ic.ipv4_cidr = none →
      ipv4_cidr cfg name = Except.error (PyErr.contextualError
        ("provider layer configuration error: no 'ipv4_cidr' found in " ++
          "blade interconnect named '" ++ name ++ "'"))) ∧
    (∀ ic cidr, dictGet (providerBladeInterconnects cfg) name = some ic →
      ic.ipv4_cidr = some cidr →
      ipv4_cidr cfg name = Except.ok cidr) := by
  refine ⟨?_, ?_, ?_⟩
  · intro h
    simp [ipv4_cidr, dictMem, h]
  · intro ic h hcidr
    simp [ipv4_cidr, dictMem, h, hcidr]
  · intro ic cidr h hcidr
    simp [ipv4_cidr, dictMem, h, hcidr]

/-- Witness for C6: on a concrete configuration, an unknown name, an entry
missing `ipv4_cidr`, and an entry with one. -/
theorem ipv4_cidr_spec_witness :
    ipv4_cidr cfgNested "nosuch" = Except.error (PyErr.contextualError
      ("requestiong ipv4_cidr of unknown blade interconnect '" ++
        "nosuch" ++ "'")) ∧
    ipv4_cidr cfgNested "netB" = Except.error (PyErr.contextualError
      ("provider layer configuration error: no 'ipv4_cidr' found in " ++
        "blade interconnect named '" ++ "netB" ++ "'")) ∧
    ipv4_cidr cfgNested "netA" = Except.ok "10.0.0.0/24" :=
  ⟨(ipv4_cidr_spec cfgNested "nosuch").1 (by decide),
    (ipv4_cidr_spec cfgNested "netB").2.1 icNoCidr (by decide) rfl,
    (ipv4_cidr_spec cfgNested "netA").2.2 icWithCidr "10.0.0.0/24"
      (by decide) rfl⟩

/-- C7 (failing-input evaluation): on a freshly connected
`PrivateBladeConnection('h0', 22, 'compute')`, the query methods
`blade_hostname()` and `local_port()` return the stored hostname and local
port, and after `_disconnect` the `local_port()` query returns the unset
sentinel (`None`) — but calling `blade_type()` or `local_ip()` raises
`TypeError`, because `__init__`'s string attributes `blade_type` and
`local_ip` shadow the identically named methods in Python's attribute
lookup, contradicting those methods' own docstrings. -/
theorem blade_connection_query_eval :
    pbcCallMethod (pbcInit "h0" 22 "compute").1 "blade_type" =
      Except.error (PyErr.typeError "'str' object is not callable") ∧
    pbcCallMethod (pbcInit "h0" 22 "compute").1 "local_ip" =
      Except.error (PyErr.typeError "'str' object is not callable") ∧
    pbcCallMethod (pbcInit "h0" 22 "compute").1 "blade_hostname" =
      Except.ok (PyVal.vStr "h0") ∧
    pbcCallMethod (pbcInit "h0" 22 "compute").1 "local_port" =
      Except.ok (PyVal.vInt 12345) ∧
    pbcCallMethod (pbcDisconnect (pbcInit "h0" 22 "compute").1) "local_port" =
      Except.ok PyVal.vNone ∧
    (pbcInit "h0" 22 "compute").1.blade_type = "compute" ∧
    (pbcInit "h0" 22 "compute").1.local_ip = "127.0.0.1" := by
  refine ⟨rfl, rfl, rfl, rfl, rfl, rfl, rfl⟩

/-- Every connection the setup comprehension has built is in the connected
state (`loc_port = 12345`): instance loop. -/
theorem setupInstances_connected (cfg : ProviderConfig) (rp : Int)
    (bt : String) (insts : List Int) (made : List PrivateBladeConnection)
    (h : ∀ c ∈ made, c.loc_port = some 12345) :
    (∀ e leaked, setupInstances cfg rp bt insts made =
        Except.error (e, leaked) → ∀ c ∈ leaked, c.loc_port = some 12345) ∧
    (∀ res, setupInstances cfg rp bt insts made = Except.ok res →
      ∀ c ∈ res, c.loc_port = some 12345) := by
  induction insts generalizing made with
  | nil =>
    constructor
    · intro e leaked hy
      simp [setupInstances] at hy
    · intro res hy
      simp [setupInstances] at hy
      subst hy
      exact h
  | cons i rest ih =>
    have hstep : ∀ hostname : String,
        ∀ c ∈ made ++ [(pbcInit hostname rp bt).1], c.loc_port = some 12345 := by
      intro hostname c hc
      rcases List.mem_append.mp hc with hin | hin
      · exact h c hin
      · simp at hin
        subst hin
        simp [pbcInit, pbcConnect, pbcNew]
    constructor
    · intro e leaked hy
      unfold setupInstances at hy
      cases hh : blade_hostname cfg bt (InstanceArg.int i) with
      | error e' =>
        rw [hh] at hy
        dsimp only [] at hy
        injection hy with hy
        injection hy with hy1 hy2
        subst hy2
        exact h
      | ok hostname =>
        rw [hh] at hy
        dsimp only [] at hy
        exact (ih _ (hstep hostname)).1 e leaked hy
    · intro res hy
      unfold setupInstances at hy
      cases hh : blade_hostname cfg bt (InstanceArg.int i) with
      | error e' =>
        rw [hh] at hy
        dsimp only [] at hy
        exact absurd hy (by simp)
      | ok hostname =>
        rw [hh] at hy
        dsimp only [] at hy
        exact (ih _ (hstep hostname)).2 res hy

/-- Every connection the setup comprehension has built is in the connected
state: blade-type loop. -/
theorem setupConnections_connected (cfg : ProviderConfig) (rp : Int)
    (bts : List String) (made : List PrivateBladeConnection)
    (h : ∀ c ∈ made, c.loc_port = some 12345) :
    (∀ e leaked, setupConnections cfg rp bts made =
        Except.error (e, leaked) → ∀ c ∈ leaked, c.loc_port = some 12345) ∧
    (∀ res, setupConnections cfg rp bts made = Except.ok res →
      ∀ c ∈ res, c.loc_port = some 12345) := by
  induction bts generalizing made with
  | nil =>
    constructor
    · intro e leaked hy
      simp [setupConnections] at hy
    · intro res hy
      simp [setupConnections] at hy
      subst hy
      exact h
  | cons bt rest ih =>
    constructor
    · intro e leaked hy
      unfold setupConnections at hy
      cases hc : blade_count cfg bt with
      | error e' =>
        rw [hc] at hy
        dsimp only [] at hy
        injection hy with hy
        injection hy with hy1 hy2
        subst hy2
        exact h
      | ok count =>
        rw [hc] at hy
        dsimp only [] at hy
        cases hsi : setupInstances cfg rp bt
            ((List.range count.toNat).map Int.ofNat) made with
        | error pr =>
          rw [hsi] at hy
          dsimp only [] at hy
          injection hy with hy
          subst hy
          exact (setupInstances_connected cfg rp bt _ made h).1 e leaked hsi
        | ok made2 =>
          rw [hsi] at hy
          dsimp only [] at hy
          exact (ih made2
            ((setupInstances_connected cfg rp bt _ made h).2 made2 hsi)).1
            e leaked hy
    · intro res hy
      unfold setupConnections at hy
      cases hc : blade_count cfg bt with
      | error e' =>
        rw [hc] at hy
        dsimp only [] at hy
        exact absurd hy (by simp)
      | ok count =>
        rw [hc] at hy
        dsimp only [] at hy
        cases hsi : setupInstances cfg rp bt
            ((List.range count.toNat).map Int.ofNat) made with
        | error pr =>
          rw [hsi] at hy
          dsimp only [] at hy
          exact absurd hy (by simp)
        | ok made2 =>
          rw [hsi] at hy
          dsimp only [] at hy
          exact (ih made2
            ((setupInstances_connected cfg rp bt _ made h).2 made2 hsi)).2
            res hy

/-- C2 (counterexample): on `cfgLeak`, building the third connection of the
batch raises `IndexError` (blade type `blade_b` declares two instances but
configures one hostname), `connect_blades` propagates the error before its
`try` block is entered, and the two connections already created remain in
the connected state (`loc_port` still `12345`) — they are never released,
refuting the claim that no connection stays connected when the scope
exits. -/
theorem connect_blades_partial_failure_leaks :
    connect_blades cfgLeak 22 (some ["blade_a", "blade_b"]) bodyNoop =
      ConnectBladesResult.setupFailed
        (PyErr.indexError "list index out of range")
        [(pbcInit "a0" 22 "blade_a").1, (pbcInit "b0" 22 "blade_b").1] ∧
    (pbcInit "a0" 22 "blade_a").1.loc_port = some 12345 ∧
    (pbcInit "b0" 22 "blade_b").1.loc_port = some 12345 := by
  refine ⟨rfl, rfl, rfl⟩

/-- C2 (amended): when an exception occurs during connection setup, the
connections already created are NOT released — each remains in the connected
state when the error propagates; the release guarantee holds only once all
connections are created and the scope is entered: then every yielded
connection is connected while the scope is active, and every connection is
released (local port cleared) when the scope exits, on every exit path
including a raising body. -/
theorem connect_blades_release_spec {α : Type} (cfg : ProviderConfig)
    (rp : Int) (bts? : Option (List String))
    (body : List PrivateBladeConnection →
      List PrivateBladeConnection × BodyResult α) :
    (∀ e leaked, connect_blades cfg rp bts? body =
        ConnectBladesResult.setupFailed e leaked →
      ∀ c ∈ leaked, c.loc_port = some 12345) ∧
    (∀ yielded final outcome, connect_blades cfg rp bts? body =
        ConnectBladesResult.completed yielded final outcome →
      (∀ c ∈ yielded, c.loc_port = some 12345) ∧
      (∀ c ∈ final, c.loc_port = none)) := by
  have hsc := setupConnections_connected cfg rp (bladeTypesArg cfg bts?) []
    (by simp)
  constructor
  · intro e leaked hy
    unfold connect_blades at hy
    cases hs : setupConnections cfg rp (bladeTypesArg cfg bts?) [] with
    | error pr =>
      rw [hs] at hy
      dsimp only [] at hy
      cases pr with
      | mk e' lk =>
        injection hy with hy1 hy2
        subst hy1
        subst hy2
        exact hsc.1 _ _ hs
    | ok conns =>
      rw [hs] at hy
      dsimp only [] at hy
      exact absurd hy (by simp)
  · intro yielded final outcome hy
    unfold connect_blades at hy
    cases hs : setupConnections cfg rp (bladeTypesArg cfg bts?) [] with
    | error pr =>
      rw [hs] at hy
      dsimp only [] at hy
      cases pr with
      | mk e' lk => exact absurd hy (by simp)
    | ok conns =>
      rw [hs] at hy
      dsimp only [] at hy
      injection hy with hy1 hy2 hy3
      subst hy1
      subst hy2
      constructor
      · exact hsc.2 _ hs
      · intro c hc
        rcases List.mem_map.mp hc with ⟨c', _, hcc⟩
        subst hcc
        simp [pbcDisconnect]

/-- Witness for C2's amended theorem: applied on the leaking configuration
(setup failure: both created connections still carry port 12345) and on a
good configuration (completed scope: the final connections carry the unset
sentinel). -/
theorem connect_blades_release_spec_witness :
    (pbcInit "a0" 22 "blade_a").1.loc_port = some 12345 ∧
    (pbcInit "b0" 22 "blade_b").1.loc_port = some 12345 ∧
    (pbcDisconnect (pbcInit "h0" 22 "compute").1).loc_port = none :=
  ⟨(connect_blades_release_spec cfgLeak 22 (some ["blade_a", "blade_b"])
      bodyNoop).1
      (PyErr.indexError "list index out of range")
      [(pbcInit "a0" 22 "blade_a").1, (pbcInit "b0" 22 "blade_b").1]
      rfl (pbcInit "a0" 22 "blade_a").1 (by simp),
    (connect_blades_release_spec cfgLeak 22 (some ["blade_a", "blade_b"])
      bodyNoop).1
      (PyErr.indexError "list index out of range")
      [(pbcInit "a0" 22 "blade_a").1, (pbcInit "b0" 22 "blade_b").1]
      rfl (pbcInit "b0" 22 "blade_b").1 (by simp),
    ((connect_blades_release_spec cfgNested 22 (some ["compute"])
      bodyNoop).2
      [(pbcInit "h0" 22 "compute").1, (pbcInit "h1" 22 "compute").1]
      [pbcDisconnect (pbcInit "h0" 22 "compute").1,
        pbcDisconnect (pbcInit "h1" 22 "compute").1]
      (BodyResult.normal ()) rfl).2
      (pbcDisconnect (pbcInit "h0" 22 "compute").1) (by simp)⟩

/-- C8: `blade_types()` names exactly the configured blade types (under the
held dictionary's top-level `virtual_blades` key) whose `pure_base_class` is
absent or false — each such type exactly once (no duplicates, membership
iff configured non-base), every `pure_base_class = true` type excluded.
The uniqueness hypothesis is the Python dict invariant on keys. -/
theorem blade_types_spec (cfg : ProviderConfig) (t : String)
    (hnd : ((cfg.virtual_blades.getD []).map Prod.fst).Nodup) :
    (blade_types cfg).Nodup ∧
    (t ∈ blade_types cfg ↔
      ∃ e, (t, e) ∈ cfg.virtual_blades.getD [] ∧
        e.pure_base_class.getD false = false) := by
  constructor
  · have hsub : (List.filter
        (fun p => !(p.2.pure_base_class.getD false))
        (cfg.virtual_blades.getD [])).Sublist
        (cfg.virtual_blades.getD []) := List.filter_sublist _
    have hmapsub := hsub.map Prod.fst
    have := hnd.sublist hmapsub
    simpa [blade_types] using this
  · constructor
    · intro ht
      simp only [blade_types] at ht
      rcases List.mem_map.mp ht with ⟨p, hp, hpt⟩
      rcases List.mem_filter.mp hp with ⟨hmem, hq⟩
      cases p with
      | mk a b =>
        dsimp only [] at hpt hq
        subst hpt
        refine ⟨b, hmem, ?_⟩
        simpa using hq
    · rintro ⟨e, hmem, he⟩
      simp only [blade_types]
      apply List.mem_map.mpr
      refine ⟨(t, e), List.mem_filter.mpr ⟨hmem, ?_⟩, rfl⟩
      simpa using he

/-- Witness for C8: on `cfgTop` (unique keys), the listing is duplicate-free
and `compute` is listed since its `pure_base_class` is absent, while the
iff's right side is checkable concretely. -/
theorem blade_types_spec_witness :
    (blade_types cfgTop).Nodup ∧
    ("compute" ∈ blade_types cfgTop ↔
      ∃ e, ("compute", e) ∈ cfgTop.virtual_blades.getD [] ∧
        e.pure_base_class.getD false = false) :=
  blade_types_spec cfgTop "compute" (by decide)

/-- C10: `blade_types()` enumerates the top-level `virtual_blades` key of
the dictionary the registry holds, while the per-blade lookups read
`provider.virtual_blades` of that same dictionary; so on any configuration
whose held dictionary has `virtual_blades` but no nested `provider` key —
the shape `LayerAPI` hands down, since it already descended into
`config['provider']` — every name `blade_types()` returns makes
`blade_count`, `blade_interconnects`, `blade_hostname` and `blade_ip` raise
the unknown-blade-type `ContextualError`. -/
theorem blade_lookup_subtree_mismatch (cfg : ProviderConfig)
    (hp : cfg.provider = none) (t : String) (_hlisted : t ∈ blade_types cfg)
    (i : Int) (ic : String) :
    blade_count cfg t = Except.error
      (PyErr.contextualError "unknown blade type '%s' specified") ∧
    blade_interconnects cfg t = Except.error
      (PyErr.contextualError "unknown blade type '%s' specified") ∧
    blade_hostname cfg t (InstanceArg.int i) = Except.error
      (PyErr.contextualError "unknown blade type '%s' specified") ∧
    blade_ip cfg t (InstanceArg.int i) ic = Except.error
      (PyErr.contextualError "unknown blade type '%s' specified") := by
  have hg : get_blade cfg t = Except.error
      (PyErr.contextualError "unknown blade type '%s' specified") := by
    simp [get_blade, providerVirtualBlades, hp, dictGet]
  refine ⟨?_, ?_, ?_, ?_⟩ <;>
    simp [blade_count, blade_interconnects, blade_hostname, blade_ip,
      check_instance, hg]

/-- Witness for C10: `cfgTop` holds `virtual_blades` at top level and no
nested `provider` key; `blade_types()` lists `compute`, yet
`blade_count('compute')` reports an unknown blade type. -/
theorem blade_lookup_subtree_mismatch_witness :
    cfgTop.provider = none ∧
    "compute" ∈ blade_types cfgTop ∧
    blade_count cfgTop "compute" = Except.error
      (PyErr.contextualError "unknown blade type '%s' specified") :=
  ⟨rfl, by decide,
    (blade_lookup_subtree_mismatch cfgTop rfl "compute" (by decide) 0
      "net0").1⟩
